import Mathlib

/- Shallow embedding of the Cryptocurrency-Market-Analysis repository
   (crypto_tracker.py and generate_report.py) and proofs about the
   claims of its specification.

   Clock instants are modelled as integers: a Python datetime is an
   integral count of microseconds, and the code only ever subtracts
   instants and compares the difference with a fixed timedelta, so the
   scheduler model carries times and the report interval in one
   arbitrary fixed unit (the claims speak in minutes); archive cleanup
   uses seconds since the epoch.  External effects (HTTP fetch, pandas
   processing, Excel writing, PDF rendering) are modelled by their
   observable boolean outcomes, exactly as the control flow of the
   source consumes them. -/

namespace CryptoTracker

/-- Outcome of one iteration of the while loop in CryptoTracker.run
(crypto_tracker.py lines 156-198), as the control flow observes it:
fetchFail models fetch_top_50_data returning falsy data (line 162);
fetched carries whether process_data returned a DataFrame rather than
None (line 170), whether update_excel returned True (line 172) and
whether report_generator.generate_report returned True (line 180);
exc models an unexpected exception raised in the body after the fetch
and caught by the handler at lines 196-198. -/
inductive CycleOutcome where
  | fetchFail : CycleOutcome
  | fetched (processOk storeOk reportOk : Bool) : CycleOutcome
  | exc : CycleOutcome
deriving DecidableEq

/-- The mutable state the loop carries: errors_count (line 153),
self.last_report_time (line 15, a datetime or None), and whether the
loop has been exited by break (line 166). -/
structure TrackerState where
  errorsCount : Nat
  lastReportTime : Option ℤ
  stopped : Bool
deriving DecidableEq

/-- Observable actions of one cycle: whether time.sleep(update_interval)
at line 191 was executed, and whether generate_report was invoked
(line 180). -/
structure CycleResult where
  slept : Bool
  reportAttempted : Bool
deriving DecidableEq

/-- max_errors = 5 (crypto_tracker.py line 154). -/
def maxErrors : Nat := 5

/-- Line 177-178: not self.last_report_time or
current_time - self.last_report_time >= self.report_interval.
A datetime is always truthy in Python, so the first disjunct holds
exactly when last_report_time is None. -/
def reportDue (lrt : Option ℤ) (t interval : ℤ) : Bool :=
  match lrt with
  | none => true
  | some r => decide (interval ≤ t - r)

/-- One iteration of the while body (lines 157-198), given the cycle's
current_time t and outcome o.  Note the fetch-failure branch executes
continue (line 167), which jumps back to the top of the loop and skips
the sleep at line 191; the exception handler at lines 196-198 also
skips the sleep and performs no threshold check. -/
def runCycle (interval : ℤ) (s : TrackerState) (t : ℤ) (o : CycleOutcome) :
    TrackerState × CycleResult :=
  match o with
  | .fetchFail =>
      let e := s.errorsCount + 1
      if maxErrors ≤ e then
        ({ s with errorsCount := e, stopped := true },
         { slept := false, reportAttempted := false })
      else
        ({ s with errorsCount := e },
         { slept := false, reportAttempted := false })
  | .exc =>
      ({ s with errorsCount := s.errorsCount + 1 },
       { slept := false, reportAttempted := false })
  | .fetched processOk storeOk reportOk =>
      if processOk then
        if storeOk then
          let s1 := { s with errorsCount := 0 }
          if reportDue s1.lastReportTime t interval then
            if reportOk then
              ({ s1 with lastReportTime := some t },
               { slept := true, reportAttempted := true })
            else
              (s1, { slept := true, reportAttempted := true })
          else
            (s1, { slept := true, reportAttempted := false })
        else
          (s, { slept := true, reportAttempted := false })
      else
        (s, { slept := true, reportAttempted := false })

/-- The while loop, driven by a list of cycle environments (each cycle's
current_time and outcome).  Once stopped is set (break), no further
cycle runs, hence no further fetch call is issued; every element of the
returned trace corresponds to one executed iteration, each of which
performs exactly one call to fetch_top_50_data (line 161). -/
def runLoop (interval : ℤ) (s : TrackerState) :
    List (ℤ × CycleOutcome) → TrackerState × List CycleResult
  | [] => (s, [])
  | (t, o) :: rest =>
      if s.stopped then (s, [])
      else
        let p := runCycle interval s t o
        let q := runLoop interval p.1 rest
        (q.1, p.2 :: q.2)

/-- The startup phase of run (lines 144-154): the initial bootstrap
report is generated unconditionally; on success last_report_time is set
to the current instant t0, on failure it stays None; errors_count
starts at 0. -/
def startup (bootstrapOk : Bool) (t0 : ℤ) : TrackerState :=
  { errorsCount := 0
    lastReportTime := if bootstrapOk then some t0 else none
    stopped := false }

/-- One row of the processed DataFrame produced by process_data
(crypto_tracker.py lines 52-88): the six selected columns Name, Symbol,
Price (USD), Market Cap (USD), 24h Volume (USD), 24h Change (%). -/
structure MarketRow where
  name : String
  symbol : String
  price : ℚ
  marketCap : ℚ
  volume24h : ℚ
  change24h : ℚ
deriving DecidableEq

/-- Models pandas nlargest(1, col) respectively nsmallest(1, col)
followed by iloc[0]: scanning the rows, a later row replaces the
current pick only when strictly better, so ties resolve to the first
occurrence in row order (pandas keep=first). -/
def pickBy (better : MarketRow → MarketRow → Bool) :
    List MarketRow → Option MarketRow
  | [] => none
  | r :: rest =>
      match pickBy better rest with
      | none => some r
      | some b => if better b r then some b else some r

/-- Maximum of a list of rationals, 0 on the empty list (only reached
for an empty DataFrame, on which the source itself is undefined:
iloc[0] would raise). -/
def listMax : List ℚ → ℚ
  | [] => 0
  | [x] => x
  | x :: y :: rest => max x (listMax (y :: rest))

/-- Minimum of a list of rationals, 0 on the empty list. -/
def listMin : List ℚ → ℚ
  | [] => 0
  | [x] => x
  | x :: y :: rest => min x (listMin (y :: rest))

/-- The analysis dictionary built by analyze_data
(crypto_tracker.py lines 90-101). -/
structure Analysis where
  timestamp : String
  top5ByMarketCap : List String
  averagePrice : ℚ
  highest24hChange : String
  lowest24hChange : String
  highest24hChangeValue : ℚ
  lowest24hChangeValue : ℚ
deriving DecidableEq

/-- Placeholder row returned by the Option eliminations below on an
empty DataFrame; analyze_data is only called on non-empty data. -/
def defaultRow : MarketRow :=
  { name := "", symbol := "", price := 0, marketCap := 0
    volume24h := 0, change24h := 0 }

/-- CryptoTracker.analyze_data (lines 90-101): df.head(5) takes the
first min(5, len) rows in order; nlargest and nsmallest pick the first
row attaining the extreme 24h change; average is the mean of the price
column.  The wall-clock timestamp string is passed in. -/
def analyze_data (timestamp : String) (df : List MarketRow) : Analysis :=
  { timestamp := timestamp
    top5ByMarketCap := (df.take 5).map MarketRow.name
    averagePrice := (df.map MarketRow.price).sum / (df.length : ℚ)
    highest24hChange :=
      ((pickBy (fun b r => decide (r.change24h < b.change24h)) df).getD
        defaultRow).name
    lowest24hChange :=
      ((pickBy (fun b r => decide (b.change24h < r.change24h)) df).getD
        defaultRow).name
    highest24hChangeValue := listMax (df.map MarketRow.change24h)
    lowest24hChangeValue := listMin (df.map MarketRow.change24h) }

/-- A concrete sample row used by concrete instantiations below. -/
def rowA : MarketRow :=
  { name := "A", symbol := "a", price := 1, marketCap := 2
    volume24h := 3, change24h := 4 }

/-- A second concrete sample row. -/
def rowB : MarketRow :=
  { name := "B", symbol := "b", price := 5, marketCap := 6
    volume24h := 7, change24h := 8 }

end CryptoTracker

namespace ReportGenerator

/-- Floor of a rational as an integer, by floor division of numerator
by denominator. -/
def ratFloor (q : ℚ) : ℤ := Int.fdiv q.num (q.den : ℤ)

/-- Rounding used by Python fixed-point string formatting: round half
to even of an exact rational (the inputs modelled here are exactly
representable). -/
def roundHalfEven (q : ℚ) : ℤ :=
  let f := ratFloor q
  if q - f < 1 / 2 then f
  else if 1 / 2 < q - f then f + 1
  else if f % 2 = 0 then f else f + 1

/-- Two-digit zero-padded decimal rendering of n < 100. -/
def pad2 (n : ℕ) : String :=
  if n < 10 then "0" ++ toString n else toString n

/-- Python format spec .2f applied to q: two decimals, round half to
even, a leading minus sign when the value is negative. -/
def fixed2 (q : ℚ) : String :=
  let n := roundHalfEven (q * 100)
  let sign := if n < 0 ∨ (n = 0 ∧ q < 0) then "-" else ""
  sign ++ toString (n.natAbs / 100) ++ "." ++ pad2 (n.natAbs % 100)

/-- Inserts thousands separators into a reversed digit list: after
every three digits that are followed by at least one more digit, a
comma is placed. -/
def groupAux : List Char → List Char
  | a :: b :: c :: d :: rest => a :: b :: c :: ',' :: groupAux (d :: rest)
  | l => l

/-- Python format spec ,.2f applied to q: like fixed2 but with the
integer part grouped in threes by commas (grouping happens after
rounding). -/
def commaFixed2 (q : ℚ) : String :=
  let n := roundHalfEven (q * 100)
  let sign := if n < 0 ∨ (n = 0 ∧ q < 0) then "-" else ""
  let intPart := toString (n.natAbs / 100)
  let grouped := String.mk ((groupAux intPart.toList.reverse).reverse)
  sign ++ grouped ++ "." ++ pad2 (n.natAbs % 100)

/-- ReportGenerator.format_currency (generate_report.py lines 76-83). -/
def format_currency (value : ℚ) : String :=
  if (1000000000 : ℚ) ≤ value then
    "$" ++ fixed2 (value / 1000000000) ++ "B"
  else if (1000000 : ℚ) ≤ value then
    "$" ++ fixed2 (value / 1000000) ++ "M"
  else
    "$" ++ commaFixed2 value

/-- Gregorian leap-year test, as used by Python datetime validation. -/
def isLeapYear (y : ℕ) : Bool :=
  decide ((y % 4 = 0 ∧ y % 100 ≠ 0) ∨ y % 400 = 0)

/-- Length of a month in the proleptic Gregorian calendar. -/
def daysInMonth (y mo : ℕ) : ℕ :=
  if mo = 2 then (if isLeapYear y then 29 else 28)
  else if mo = 4 ∨ mo = 6 ∨ mo = 9 ∨ mo = 11 then 30
  else 31

/-- Numeric value of a decimal digit character. -/
def digitVal (c : Char) : ℕ := c.toNat - 48

/-- Value of a fixed-width decimal digit string. -/
def digitsToNat (l : List Char) : ℕ :=
  l.foldl (fun a c => 10 * a + digitVal c) 0

/-- A parsed wall-clock instant, as produced by datetime.strptime. -/
structure PDateTime where
  year : ℕ
  month : ℕ
  day : ℕ
  hour : ℕ
  minute : ℕ
  second : ℕ
deriving DecidableEq

/-- Character-class test for a single given character, used by the
strptime regular expression below. -/
def chIs (a : Char) : Char → Bool := fun c => decide (c = a)

/-- Inclusive character-range test. -/
def chRange (a b : Char) : Char → Bool := fun c => decide (a ≤ c ∧ c ≤ b)

/-- Matches one digit of the given class, returning its value and the
unconsumed input. -/
def mat1 (p : Char → Bool) : List Char → Option (ℕ × List Char)
  | c :: rest => if p c then some (digitVal c, rest) else none
  | _ => none

/-- Matches two digits of the given classes, returning their two-digit
value and the unconsumed input. -/
def mat2 (p1 p2 : Char → Bool) : List Char → Option (ℕ × List Char)
  | c1 :: c2 :: rest =>
      if p1 c1 && p2 c2 then some (10 * digitVal c1 + digitVal c2, rest)
      else none
  | _ => none

/-- Ordered-alternative matching with backtracking, exactly as the
regular-expression engine resolves an alternation: alternatives are
tried in the written order, and when the continuation of a locally
successful alternative fails, the next alternative is tried. -/
def tryAlts {α : Type} :
    List (List Char → Option (ℕ × List Char)) → List Char →
    (ℕ → List Char → Option α) → Option α
  | [], _, _ => none
  | a :: rest, cs, k =>
      match a cs with
      | none => tryAlts rest cs k
      | some r =>
          match k r.1 r.2 with
          | some out => some out
          | none => tryAlts rest cs k

/-- CPython TimeRE alternation for percent-m: 1[0-2], 0[1-9] or [1-9]
(one or two digits, months 1 to 12). -/
def monthAlts : List (List Char → Option (ℕ × List Char)) :=
  [mat2 (chIs '1') (chRange '0' '2'),
   mat2 (chIs '0') (chRange '1' '9'),
   mat1 (chRange '1' '9')]

/-- CPython TimeRE alternation for percent-d: 3[01], [12] then a
digit, 0[1-9] or [1-9] (one or two digits, days 1 to 31). -/
def dayAlts : List (List Char → Option (ℕ × List Char)) :=
  [mat2 (chIs '3') (chRange '0' '1'),
   mat2 (chRange '1' '2') Char.isDigit,
   mat2 (chIs '0') (chRange '1' '9'),
   mat1 (chRange '1' '9')]

/-- CPython TimeRE alternation for percent-H: 2[0-3], [0-1] then a
digit, or a single digit (hours 0 to 23). -/
def hourAlts : List (List Char → Option (ℕ × List Char)) :=
  [mat2 (chIs '2') (chRange '0' '3'),
   mat2 (chRange '0' '1') Char.isDigit,
   mat1 Char.isDigit]

/-- CPython TimeRE alternation for percent-M: [0-5] then a digit, or a
single digit (minutes 0 to 59). -/
def minuteAlts : List (List Char → Option (ℕ × List Char)) :=
  [mat2 (chRange '0' '5') Char.isDigit,
   mat1 Char.isDigit]

/-- CPython TimeRE alternation for percent-S: 6[0-1], [0-5] then a
digit, or a single digit (seconds 0 to 61 at the regex level). -/
def secondAlts : List (List Char → Option (ℕ × List Char)) :=
  [mat2 (chIs '6') (chRange '0' '1'),
   mat2 (chRange '0' '5') Char.isDigit,
   mat1 Char.isDigit]

/-- The regular-expression match for the part of the format after the
four year digits: percent-m percent-d, a literal underscore, then
percent-H percent-M percent-S.  Returns the first match in
backtracking preference order (a failing literal underscore or a
failing later directive backtracks the earlier alternations), together
with the unconsumed leftover: the pattern is not end-anchored, so the
leftover is reported rather than retried. -/
def matchTail (cs : List Char) :
    Option (ℕ × ℕ × ℕ × ℕ × ℕ × List Char) :=
  tryAlts monthAlts cs (fun mo cs2 =>
    tryAlts dayAlts cs2 (fun d cs3 =>
      match cs3 with
      | '_' :: cs4 =>
          tryAlts hourAlts cs4 (fun h cs5 =>
            tryAlts minuteAlts cs5 (fun mi cs6 =>
              tryAlts secondAlts cs6 (fun se cs7 =>
                some (mo, d, h, mi, se, cs7))))
      | _ => none))

/-- datetime.strptime on the joined timestamp tail (generate_report.py
line 204) with format percent-Y percent-m percent-d underscore
percent-H percent-M percent-S, following CPython: percent-Y matches
exactly four digits, while month, day, hour, minute and second accept
one or two digits according to the TimeRE alternations above, resolved
by ordered backtracking; the resulting match must consume the whole
string (unconverted data raises ValueError); the datetime constructor
then additionally requires year at least 1, the day to fit the month
length (with leap years) and second at most 59 (the regex admits 60
and 61, which the constructor rejects).  none models the raised
ValueError. -/
def strptimeYmdHMS (cs : List Char) : Option PDateTime :=
  match cs with
  | y1 :: y2 :: y3 :: y4 :: rest =>
      if [y1, y2, y3, y4].all Char.isDigit then
        match matchTail rest with
        | some (mo, d, h, mi, se, leftover) =>
            if leftover = [] then
              let y := digitsToNat [y1, y2, y3, y4]
              if 1 ≤ y ∧ d ≤ daysInMonth y mo ∧ se ≤ 59 then
                some { year := y, month := mo, day := d
                       hour := h, minute := mi, second := se }
              else none
            else none
        | none => none
      else none
  | _ => none

/-- Days since 1970-01-01 of a proleptic Gregorian date with year ≥ 1
(the civil-from-days algorithm, matching Python date ordinals shifted
to the Unix epoch). -/
def daysFromCivil (y mo d : ℕ) : ℤ :=
  let y2 := if mo ≤ 2 then y - 1 else y
  let era := y2 / 400
  let yoe := y2 % 400
  let mp := (mo + 9) % 12
  let doy := (153 * mp + 2) / 5 + d - 1
  let doe := yoe * 365 + yoe / 4 - yoe / 100 + doy
  ((era * 146097 + doe : ℕ) : ℤ) - 719468

/-- Seconds since the Unix epoch of a parsed datetime; datetime
subtraction compared against timedelta(days=7) is exact arithmetic on
this value. -/
def toEpoch (dt : PDateTime) : ℤ :=
  daysFromCivil dt.year dt.month dt.day * 86400 +
    ((dt.hour * 3600 + dt.minute * 60 + dt.second : ℕ) : ℤ)

/-- Python str.split on a single separator character: splitting an
empty string yields one empty part, and adjacent separators yield
empty parts. -/
def splitOnChar (sep : Char) : List Char → List (List Char)
  | [] => [[]]
  | c :: rest =>
      let r := splitOnChar sep rest
      if c = sep then [] :: r
      else
        match r with
        | [] => [[c]]
        | h :: t => (c :: h) :: t

/-- Python str.join with an underscore separator. -/
def joinUnderscore : List (List Char) → List Char
  | [] => []
  | [p] => p
  | p :: rest => p ++ '_' :: joinUnderscore rest

/-- Lines 203-204 of generate_report.py applied to one archive file
stem: report.stem.split(underscore)[2:] joined by underscores, parsed
by strptime, converted to an epoch instant.  none models the
ValueError strptime raises on a malformed name. -/
def archiveTimestamp (stem : String) : Option ℤ :=
  let parts := splitOnChar '_' stem.toList
  (strptimeYmdHMS (joinUnderscore (parts.drop 2))).map toEpoch

/-- Which directory entries the glob pattern crypto_analysis_*.pdf
selects; entries are modelled by the stem of the pdf file name. -/
def isArchiveStem (stem : String) : Bool :=
  List.isPrefixOf ("crypto_analysis_").toList stem.toList

/-- The for loop of _cleanup_old_reports (generate_report.py lines
202-208) over the globbed stems in iteration order.  Returns the
surviving stems and whether the loop was aborted.  The try/except
wraps the whole loop (lines 200-210), so the first stem whose
timestamp fails to parse raises ValueError out of the loop: that stem
and every stem after it are left untouched and the exception is caught
and logged as a warning (abort flag true).  A parsed file is unlinked
exactly when now minus its timestamp strictly exceeds 7 days. -/
def cleanupGo (now : ℤ) : List String → List String × Bool
  | [] => ([], false)
  | f :: rest =>
      match archiveTimestamp f with
      | none => (f :: rest, true)
      | some tsec =>
          let r := cleanupGo now rest
          if 7 * 86400 < now - tsec then (r.1, r.2)
          else (f :: r.1, r.2)

/-- ReportGenerator._cleanup_old_reports (lines 198-210): iterate over
the archive-directory entries matching the glob. -/
def cleanup_old_reports (now : ℤ) (dir : List String) :
    List String × Bool :=
  cleanupGo now (dir.filter isArchiveStem)

/-- The report artifacts on disk: the optional content of
reports/latest_report.pdf and the archive directory as a list of
(stem, content) pairs in iteration order.  Contents are abstract
naturals. -/
structure ReportFS where
  latest : Option ℕ
  archive : List (String × ℕ)
deriving DecidableEq

/-- Environment of one generate_report call: whether load_data
returns data (lines 167-169), whether each of the two
create_pdf_report calls succeeds (a failed call raises into the
except at lines 194-196), the freshly rendered content, the timestamp
string used for the archive name (line 172) and the current epoch
instant used by cleanup. -/
structure RenderEnv where
  loadOk : Bool
  renderLatestOk : Bool
  renderArchiveOk : Bool
  content : ℕ
  timestamp : String
  now : ℤ
deriving DecidableEq

/-- ReportGenerator.generate_report (lines 161-196): on load failure
return False with the filesystem untouched; otherwise render the
latest report first (line 182) and the archive copy second (line 185);
an exception in either render aborts with False, so a failure of the
archive render leaves the latest slot already overwritten; on success
append the archive entry, run cleanup (whose own errors are swallowed
at lines 209-210) and return True. -/
def generate_report (env : RenderEnv) (fs : ReportFS) : Bool × ReportFS :=
  if env.loadOk = false then (false, fs)
  else if env.renderLatestOk = false then (false, fs)
  else
    let fs1 : ReportFS := { fs with latest := some env.content }
    if env.renderArchiveOk = false then (false, fs1)
    else
      let stem := ("crypto_analysis_") ++ env.timestamp
      let fs2 : ReportFS :=
        { fs1 with archive := fs1.archive ++ [(stem, env.content)] }
      let kept := (cleanup_old_reports env.now (fs2.archive.map Prod.fst)).1
      let surv := fs2.archive.filter (fun p => kept.contains p.1)
      (true, { fs2 with archive := surv })

/-- A fixed reference instant for concrete cleanup scenarios:
2025-01-10 12:00:00. -/
def nowJan10 : ℤ :=
  toEpoch { year := 2025, month := 1, day := 10
            hour := 12, minute := 0, second := 0 }

end ReportGenerator

open CryptoTracker ReportGenerator

/-- Once the loop has been exited by break, no further iteration runs
and no further fetch call is issued. -/
lemma runLoop_of_stopped (interval : ℤ) (s : TrackerState)
    (evts : List (ℤ × CycleOutcome)) (h : s.stopped = true) :
    runLoop interval s evts = (s, []) := by
  cases evts with
  | nil => rfl
  | cons e rest => cases e with
    | mk t o => simp [runLoop, h]

/-- Unfolding of one live loop iteration. -/
lemma runLoop_cons_live (interval : ℤ) (s : TrackerState) (t : ℤ)
    (o : CycleOutcome) (rest : List (ℤ × CycleOutcome))
    (hs : s.stopped = false) :
    runLoop interval s ((t, o) :: rest)
      = ((runLoop interval (runCycle interval s t o).1 rest).1,
         (runCycle interval s t o).2 ::
           (runLoop interval (runCycle interval s t o).1 rest).2) := by
  simp [runLoop, hs]

/-- A non-empty run of consecutive fetch failures whose length pushes
the counter to the threshold leaves the loop stopped, with at most one
executed iteration per failure. -/
lemma fetchFail_run (interval : ℤ) :
    ∀ (ts : List ℤ) (s : TrackerState) (rest : List (ℤ × CycleOutcome)),
      s.stopped = false → ts ≠ [] →
      maxErrors ≤ s.errorsCount + ts.length →
      ((runLoop interval s
          (ts.map (fun t => (t, CycleOutcome.fetchFail)) ++ rest)).1.stopped = true)
      ∧ ((runLoop interval s
          (ts.map (fun t => (t, CycleOutcome.fetchFail)) ++ rest)).2.length ≤ ts.length) := by
  intro ts
  induction ts with
  | nil => intro s rest _ hne _; exact absurd rfl hne
  | cons t ts ih =>
      intro s rest hs _ hcount
      by_cases h5 : maxErrors ≤ s.errorsCount + 1
      · have hstep : runCycle interval s t CycleOutcome.fetchFail
            = ({ s with errorsCount := s.errorsCount + 1, stopped := true },
               { slept := false, reportAttempted := false }) := by
          simp [runCycle, h5]
        rw [List.map_cons, List.cons_append,
          runLoop_cons_live interval s t CycleOutcome.fetchFail _ hs, hstep,
          runLoop_of_stopped interval _ _ rfl]
        simp
      · have hstep : runCycle interval s t CycleOutcome.fetchFail
            = ({ s with errorsCount := s.errorsCount + 1 },
               { slept := false, reportAttempted := false }) := by
          simp [runCycle, h5]
        have hne2 : ts ≠ [] := by
          intro he
          apply h5
          rw [he] at hcount
          simpa using hcount
        have hih := ih { s with errorsCount := s.errorsCount + 1 } rest hs hne2
          (by show maxErrors ≤ s.errorsCount + 1 + ts.length
              simp only [List.length_cons] at hcount
              omega)
        rw [List.map_cons, List.cons_append,
          runLoop_cons_live interval s t CycleOutcome.fetchFail _ hs, hstep]
        refine ⟨hih.1, ?_⟩
        simpa using Nat.succ_le_succ hih.2

/-- Claim C1: for every run of the scheduler loop, after 5 consecutive
fetch failures (FetchError outcomes) the scheduler transitions to
Stopped, halts the loop, and issues no further fetch calls: from any
live loop state, five consecutive cycles whose fetch returns no data
leave the loop stopped, and however many further cycle environments
follow, at most those 5 iterations (hence at most 5 fetch calls)
execute. -/
theorem claim_C1 (e : ℕ) (lrt : Option ℤ) (t1 t2 t3 t4 t5 : ℤ)
    (rest : List (ℤ × CycleOutcome)) :
    ((runLoop 5 ⟨e, lrt, false⟩
        ((t1, CycleOutcome.fetchFail) :: (t2, CycleOutcome.fetchFail) ::
         (t3, CycleOutcome.fetchFail) :: (t4, CycleOutcome.fetchFail) ::
         (t5, CycleOutcome.fetchFail) :: rest)).1.stopped = true)
    ∧ ((runLoop 5 ⟨e, lrt, false⟩
        ((t1, CycleOutcome.fetchFail) :: (t2, CycleOutcome.fetchFail) ::
         (t3, CycleOutcome.fetchFail) :: (t4, CycleOutcome.fetchFail) ::
         (t5, CycleOutcome.fetchFail) :: rest)).2.length ≤ 5) := by
  have h := fetchFail_run 5 [t1, t2, t3, t4, t5] ⟨e, lrt, false⟩ rest rfl
    (by simp) (by simp [maxErrors])
  simpa using h

/-- Claim C2, counterexample: the bootstrap report succeeds at instant
0, so last_report_time is set; the very first successful refresh cycle
runs 1 minute later and does NOT invoke report generation (the trace
records no report attempt), contradicting the claim that the first
successful cycle always triggers report generation regardless of
elapsed time since the bootstrap report. -/
theorem claim_C2_cex :
    (runLoop 5 (startup true 0)
        [((1 : ℤ), CycleOutcome.fetched true true true)]).2
      = [{ slept := true, reportAttempted := false }] := by decide

/-- Claim C2, amended: when no last-report time is recorded at loop
entry (the bootstrap report failed), the first successful cycle
triggers report generation regardless of its instant, and a second
successful cycle 1 minute later (report interval 5) does not; when the
bootstrap report succeeded at t0, a successful cycle at t attempts a
report exactly when t - t0 has reached the interval. -/
theorem claim_C2 (e : ℕ) (t1 t0 t : ℤ) :
    ((runLoop 5 ⟨e, none, false⟩
        [(t1, CycleOutcome.fetched true true true),
         (t1 + 1, CycleOutcome.fetched true true true)]).2
      = [{ slept := true, reportAttempted := true },
         { slept := true, reportAttempted := false }])
    ∧ ((runLoop 5 (startup true t0)
        [(t, CycleOutcome.fetched true true true)]).2
      = [{ slept := true, reportAttempted := decide (5 ≤ t - t0) }]) := by
  constructor
  · have h1 : t1 + 1 - t1 = (1 : ℤ) := by ring
    simp [runLoop, runCycle, reportDue, h1]
  · simp only [startup, if_pos, runLoop, runCycle, reportDue]
    by_cases hd : (5 : ℤ) ≤ t - t0 <;> simp [hd]

/-- Claim C3, counterexample: two consecutive non-fatal fetch failures
from a fresh loop state execute back to back with slept = false in
both iterations — the continue statement skips the
time.sleep(update_interval) call, so no full update-interval sleep
elapses before the next fetch attempt, contradicting the claim. -/
theorem claim_C3_cex :
    (runLoop 5 ⟨0, none, false⟩
        [((0 : ℤ), CycleOutcome.fetchFail), (0, CycleOutcome.fetchFail)]).2
      = [{ slept := false, reportAttempted := false },
         { slept := false, reportAttempted := false }] := by decide

/-- Claim C3, amended: on a fetch failure that does not reach the fatal
threshold, the scheduler increments the consecutive-error counter and
does not advance further in that cycle (no store, no report attempt,
not stopped), but it does NOT sleep: the continue statement returns
straight to the top of the loop, so the next fetch attempt follows
immediately without an update-interval wait. -/
theorem claim_C3 (s : TrackerState) (t : ℤ)
    (h : s.errorsCount + 1 < maxErrors) :
    runCycle 5 s t CycleOutcome.fetchFail
      = ({ s with errorsCount := s.errorsCount + 1 },
         { slept := false, reportAttempted := false }) := by
  simp [runCycle, Nat.not_le.mpr h]

/-- Witness for claim C3 at a concrete non-fatal state. -/
theorem claim_C3_witness :
    (2 + 1 < maxErrors)
    ∧ (runCycle 5 ⟨2, none, false⟩ 3 CycleOutcome.fetchFail
        = (⟨3, none, false⟩, ⟨false, false⟩)) :=
  ⟨by decide, claim_C3 ⟨2, none, false⟩ 3 (by decide)⟩

/-- Claim C4, counterexample: with the consecutive-error counter at 4,
a cycle whose fetch succeeds but whose transform (process_data) fails
leaves the counter at 4 and the loop running — the claim would require
the counter to be incremented to 5 and the scheduler stopped. -/
theorem claim_C4_cex :
    runCycle 5 ⟨4, none, false⟩ 0 (CycleOutcome.fetched false true true)
      = (⟨4, none, false⟩, { slept := true, reportAttempted := false }) := by
  decide

/-- Claim C4, amended: if the transform step fails on a fetched
payload, that cycle is abandoned (no store, no report attempt) and the
loop sleeps until the next tick, but the consecutive-error counter is
NOT incremented and the scheduler state is left entirely unchanged:
process_data swallows the failure and returns None, so the transform
failure is never counted toward the stop threshold and can never stop
the scheduler. -/
theorem claim_C4 (interval t : ℤ) (s : TrackerState) (stOk repOk : Bool) :
    runCycle interval s t (CycleOutcome.fetched false stOk repOk)
      = (s, { slept := true, reportAttempted := false }) := by
  simp [runCycle]

/-- Claim C5, counterexample: a cycle whose fetch and transform succeed
but whose Excel store fails leaves the consecutive-error counter at 3
— the claim would require it to be reset to 0 in every cycle whose
fetch succeeds, independently of the store outcome. -/
theorem claim_C5_cex :
    (runCycle 5 ⟨3, none, false⟩ 0
        (CycleOutcome.fetched true false true)).1.errorsCount = 3 := by decide

/-- Claim C5, amended: the consecutive-error counter is reset to 0
exactly in the cycles in which fetch, transform AND store all succeed
(the reset sits inside the update_excel success branch); when the
store fails the counter is left unchanged (neither reset nor
incremented), and the scheduler is not stopped. -/
theorem claim_C5 (interval t : ℤ) (s : TrackerState) (repOk : Bool) :
    ((runCycle interval s t
        (CycleOutcome.fetched true true repOk)).1.errorsCount = 0)
    ∧ ((runCycle interval s t
        (CycleOutcome.fetched true false repOk)).1.errorsCount = s.errorsCount)
    ∧ ((runCycle interval s t
        (CycleOutcome.fetched true false repOk)).1.stopped = s.stopped) := by
  refine ⟨?_, by simp [runCycle], by simp [runCycle]⟩
  simp only [runCycle]
  split_ifs <;> simp_all

/-- Claim C6, counterexample: with a malformed archive name first in
glob iteration order, the ValueError raised by strptime escapes the
for loop into the surrounding except, so cleanup is aborted and the
8-day-old file crypto_analysis_20250102_120000 (now being 2025-01-10
12:00:00) survives — contradicting the claim that a malformed filename
does not abort cleanup of the remaining files, each file more than 7
days old being removed. -/
theorem claim_C6_cex :
    cleanup_old_reports nowJan10
        [("crypto_analysis_notadate"), ("crypto_analysis_20250102_120000")]
      = ([("crypto_analysis_notadate"), ("crypto_analysis_20250102_120000")],
         true) := by decide

/-- Claim C6, amended: while the scan has not been aborted, for every
archive file whose name parses under the timestamp format, the file is
removed exactly when its encoded timestamp is more than 7 days older
than now and kept otherwise: for every now and every list of stems
that all parse, the survivors are precisely the files at most 7 days
old, in order, with no abort (concretely, with now 2025-01-10
12:00:00, an 8-day-old file is removed while 3-day-old and
exactly-7-day-old files are kept); a file with an unparseable name is
itself left untouched and the resulting ValueError is caught and
logged rather than propagated, but it aborts cleanup of the files
after it in iteration order, which all survive. -/
theorem claim_C6 :
    (∀ (now : ℤ) (files : List String),
        (∀ f ∈ files, (archiveTimestamp f).isSome = true) →
        cleanupGo now files
          = (files.filter
              (fun f =>
                decide (now - (archiveTimestamp f).getD 0 ≤ 7 * 86400)),
             false))
    ∧ (cleanup_old_reports nowJan10
        [("crypto_analysis_20250102_120000"),
         ("crypto_analysis_20250107_120000"),
         ("crypto_analysis_20250103_120000")]
      = ([("crypto_analysis_20250107_120000"),
          ("crypto_analysis_20250103_120000")], false))
    ∧ (∀ (now : ℤ) (bad : String) (rest : List String),
        archiveTimestamp bad = none →
        cleanupGo now (bad :: rest) = (bad :: rest, true)) := by
  refine ⟨?_, by decide, ?_⟩
  · intro now files hall
    induction files with
    | nil => simp [cleanupGo]
    | cons f rest ih =>
        have hf : (archiveTimestamp f).isSome = true := hall f (by simp)
        obtain ⟨ts, hts⟩ := Option.isSome_iff_exists.mp hf
        have hrest := ih (fun g hg => hall g (List.mem_cons_of_mem f hg))
        by_cases hexp : 7 * 86400 < now - ts
        · have hp : decide (now - (archiveTimestamp f).getD 0 ≤ 7 * 86400)
              = false := by
            rw [hts]
            exact decide_eq_false (not_le.mpr hexp)
          simp only [cleanupGo, hts, hrest, List.filter_cons, hp,
            Bool.false_eq_true, if_false]
          rw [if_pos hexp]
          simp only [Option.getD_some]
          have hc : decide (now - ts ≤ 7 * 86400) = false :=
            decide_eq_false (by omega)
          simp [hc]
          rw [if_neg (show ¬now ≤ 604800 + ts from by omega)]
        · have hp : decide (now - (archiveTimestamp f).getD 0 ≤ 7 * 86400)
              = true := by
            rw [hts]
            exact decide_eq_true (not_lt.mp hexp)
          simp only [cleanupGo, hts, hrest, List.filter_cons, hp, if_true]
          rw [if_neg hexp]
          simp only [Option.getD_some]
          have hc : decide (now - ts ≤ 7 * 86400) = true :=
            decide_eq_true (by omega)
          simp [hc]
          rw [if_pos (show now ≤ 604800 + ts from by omega)]
  · intro now bad rest hbad
    simp [cleanupGo, hbad]

/-- Witness for claim C6: the universal keep/remove policy applied to
a concrete fully-parseable two-stem archive, and a concrete
unparseable stem aborting the scan while leaving it and its successor
untouched. -/
theorem claim_C6_witness :
    ((∀ f ∈ ([("crypto_analysis_20250102_120000"),
              ("crypto_analysis_20250107_120000")] : List String),
        (archiveTimestamp f).isSome = true)
      ∧ (cleanupGo nowJan10
          [("crypto_analysis_20250102_120000"),
           ("crypto_analysis_20250107_120000")]
        = (([("crypto_analysis_20250102_120000"),
             ("crypto_analysis_20250107_120000")] : List String).filter
              (fun f =>
                decide (nowJan10 - (archiveTimestamp f).getD 0 ≤ 7 * 86400)),
           false)))
    ∧ ((archiveTimestamp ("crypto_analysis_oops") = none)
      ∧ (cleanupGo nowJan10
          [("crypto_analysis_oops"), ("crypto_analysis_20250101_000000")]
        = ([("crypto_analysis_oops"), ("crypto_analysis_20250101_000000")],
           true))) :=
  ⟨⟨by decide,
    claim_C6.1 nowJan10
      [("crypto_analysis_20250102_120000"),
       ("crypto_analysis_20250107_120000")] (by decide)⟩,
   ⟨by decide,
    claim_C6.2.2 nowJan10 ("crypto_analysis_oops")
      [("crypto_analysis_20250101_000000")] (by decide)⟩⟩

/-- Claim C7, counterexample: generate_report renders the latest
report before the archive copy; when the archive render fails the call
returns False (a RenderError outcome) but the prior latest artifact
(content 1) has already been overwritten with the new content 2 —
contradicting the claim that a generation failure leaves the prior
latest artifact untouched. -/
theorem claim_C7_cex :
    generate_report
        { loadOk := true, renderLatestOk := true, renderArchiveOk := false,
          content := 2, timestamp := ("20250110_120000"), now := nowJan10 }
        { latest := some 1, archive := [] }
      = (false, { latest := some 2, archive := [] }) := by decide

/-- Claim C7, amended: whenever report generation fails, the recorded
last-report time is left unchanged so the next due cycle retries, and
the archive is left untouched; the prior latest artifact is untouched
when the failure happens at load time or while rendering the latest
report, but when the archive render fails the latest slot has already
been overwritten with the new content. -/
theorem claim_C7 :
    (∀ (interval t : ℤ) (s : TrackerState),
        (runCycle interval s t
            (CycleOutcome.fetched true true false)).1.lastReportTime
          = s.lastReportTime)
    ∧ (∀ (env : RenderEnv) (fs : ReportFS), env.loadOk = false →
        generate_report env fs = (false, fs))
    ∧ (∀ (env : RenderEnv) (fs : ReportFS),
        env.loadOk = true → env.renderLatestOk = false →
        generate_report env fs = (false, fs))
    ∧ (∀ (env : RenderEnv) (fs : ReportFS),
        env.loadOk = true → env.renderLatestOk = true →
        env.renderArchiveOk = false →
        generate_report env fs
          = (false, { fs with latest := some env.content })) := by
  refine ⟨?_, ?_, ?_, ?_⟩
  · intro interval t s
    simp only [runCycle]
    split_ifs <;> simp_all
  · intro env fs h
    simp [generate_report, h]
  · intro env fs h1 h2
    simp [generate_report, h1, h2]
  · intro env fs h1 h2 h3
    simp [generate_report, h1, h2, h3]

/-- Witness for claim C7 at a concrete environment and filesystem. -/
theorem claim_C7_witness :
    generate_report
        { loadOk := true, renderLatestOk := true, renderArchiveOk := false,
          content := 5, timestamp := ("x"), now := 0 }
        { latest := some 3, archive := [] }
      = (false, { latest := some 5, archive := [] }) :=
  claim_C7.2.2.2
    { loadOk := true, renderLatestOk := true, renderArchiveOk := false,
      content := 5, timestamp := ("x"), now := 0 }
    { latest := some 3, archive := [] } rfl rfl rfl

/-- Integer-valued rationals have themselves as floor. -/
lemma ratFloor_intCast (n : ℤ) : ratFloor ((n : ℤ) : ℚ) = n := by
  simp [ratFloor, Rat.num_intCast, Rat.den_intCast, Int.fdiv_one]

/-- Round half to even is the identity on integer-valued rationals. -/
lemma roundHalfEven_intCast (n : ℤ) : roundHalfEven ((n : ℤ) : ℚ) = n := by
  simp only [roundHalfEven, ratFloor_intCast]
  norm_num

/-- Claim C8: format_currency selects the billions rendering (value
divided by 1e9, two decimals, suffix B) when value is at least 1e9,
the millions rendering (divided by 1e6, suffix M) when value is at
least 1e6 and below 1e9, and the comma-grouped two-decimal rendering
otherwise; in particular 999 formats as a dollar sign with 999.00,
1500000 as 1.50M and 2300000000 as 2.30B. -/
theorem claim_C8 :
    (format_currency 999 = "$999.00")
    ∧ (format_currency 1500000 = "$1.50M")
    ∧ (format_currency 2300000000 = "$2.30B")
    ∧ (∀ v : ℚ, (1000000000 : ℚ) ≤ v →
        format_currency v = "$" ++ fixed2 (v / 1000000000) ++ "B")
    ∧ (∀ v : ℚ, (1000000 : ℚ) ≤ v → v < 1000000000 →
        format_currency v = "$" ++ fixed2 (v / 1000000) ++ "M")
    ∧ (∀ v : ℚ, v < 1000000 → format_currency v = "$" ++ commaFixed2 v) := by
  refine ⟨?_, ?_, ?_, ?_, ?_, ?_⟩
  · rw [format_currency, if_neg (by norm_num), if_neg (by norm_num)]
    simp only [commaFixed2]
    rw [show (999 : ℚ) * 100 = ((99900 : ℤ) : ℚ) by norm_num,
      roundHalfEven_intCast]
    decide
  · rw [format_currency, if_neg (by norm_num), if_pos (by norm_num)]
    simp only [fixed2]
    rw [show (1500000 : ℚ) / 1000000 * 100 = ((150 : ℤ) : ℚ) by norm_num,
      roundHalfEven_intCast]
    decide
  · rw [format_currency, if_pos (by norm_num)]
    simp only [fixed2]
    rw [show (2300000000 : ℚ) / 1000000000 * 100 = ((230 : ℤ) : ℚ) by norm_num,
      roundHalfEven_intCast]
    decide
  · intro v h
    rw [format_currency, if_pos h]
  · intro v h1 h2
    rw [format_currency, if_neg (by linarith), if_pos h1]
  · intro v h
    rw [format_currency, if_neg (by linarith), if_neg (by linarith)]

/-- Witness for claim C8, applying the millions branch at 1500000. -/
theorem claim_C8_witness :
    ((1000000 : ℚ) ≤ 1500000) ∧ ((1500000 : ℚ) < 1000000000)
    ∧ (format_currency 1500000 = "$" ++ fixed2 ((1500000 : ℚ) / 1000000) ++ "M") :=
  ⟨by norm_num, by norm_num,
    claim_C8.2.2.2.2.1 1500000 (by norm_num) (by norm_num)⟩

/-- Claim C9: for every non-empty transformed snapshot, the top-5 list
of the analysis has length min(5, row count), hence at most 5 entries,
and is a sublist of the snapshot's row-name sequence, so its order is
consistent with the input order. -/
theorem claim_C9 (ts : String) (df : List MarketRow) (h : df ≠ []) :
    ((analyze_data ts df).top5ByMarketCap.length = min 5 df.length)
    ∧ ((analyze_data ts df).top5ByMarketCap.length ≤ 5)
    ∧ List.Sublist (analyze_data ts df).top5ByMarketCap
        (df.map MarketRow.name) := by
  refine ⟨?_, ?_, ?_⟩
  · simp [analyze_data, List.length_take]
  · simp only [analyze_data, List.length_map, List.length_take]
    exact min_le_left _ _
  · simp only [analyze_data]
    exact List.Sublist.map MarketRow.name (List.take_sublist 5 df)

/-- Witness for claim C9 on a concrete two-row snapshot. -/
theorem claim_C9_witness :
    (([rowA, rowB] : List MarketRow) ≠ [])
    ∧ (((analyze_data ("t") [rowA, rowB]).top5ByMarketCap.length
        = min 5 ([rowA, rowB] : List MarketRow).length)
      ∧ (((analyze_data ("t") [rowA, rowB]).top5ByMarketCap.length ≤ 5)
      ∧ List.Sublist (analyze_data ("t") [rowA, rowB]).top5ByMarketCap
          (([rowA, rowB] : List MarketRow).map MarketRow.name))) :=
  ⟨by simp, claim_C9 ("t") [rowA, rowB] (by simp)⟩

/-- Claim C10: an unexpected exception in the loop body increments the
consecutive-error counter but performs no stop-threshold check: the
scheduler's stopped flag changes only in the fetch-failure branch, and
a run of consecutive non-fetch exceptions of any length leaves the
loop running with the counter grown by that length, so the counter can
reach or exceed 5 without stopping. -/
theorem claim_C10 :
    (∀ (interval t : ℤ) (s : TrackerState) (o : CycleOutcome),
        o ≠ CycleOutcome.fetchFail →
        (runCycle interval s t o).1.stopped = s.stopped)
    ∧ (∀ (interval t : ℤ) (s : TrackerState),
        (runCycle interval s t CycleOutcome.exc).1.errorsCount
          = s.errorsCount + 1)
    ∧ (∀ (interval : ℤ) (e : ℕ) (lrt : Option ℤ) (ts : List ℤ),
        runLoop interval ⟨e, lrt, false⟩
            (ts.map (fun t => (t, CycleOutcome.exc)))
          = (⟨e + ts.length, lrt, false⟩,
             ts.map (fun _ => { slept := false, reportAttempted := false }))) := by
  refine ⟨?_, by intro interval t s; simp [runCycle], ?_⟩
  · intro interval t s o ho
    cases o with
    | fetchFail => exact absurd rfl ho
    | exc => simp [runCycle]
    | fetched p st rep =>
        simp only [runCycle]
        split_ifs <;> simp_all
  · intro interval e lrt ts
    induction ts generalizing e with
    | nil => simp [runLoop]
    | cons t ts ih =>
        simp only [List.map_cons, runLoop, runCycle, ih (e + 1)]
        simp only [Bool.false_eq_true, if_false, List.length_cons]
        have harith : e + 1 + ts.length = e + (ts.length + 1) := by omega
        rw [harith]

/-- Witness for claim C10 at a concrete exception cycle from a state
whose counter already exceeds the threshold. -/
theorem claim_C10_witness :
    (CycleOutcome.exc ≠ CycleOutcome.fetchFail)
    ∧ ((runCycle 5 ⟨7, none, false⟩ 0 CycleOutcome.exc).1.stopped = false) :=
  ⟨by decide, claim_C10.1 5 0 ⟨7, none, false⟩ CycleOutcome.exc (by decide)⟩

